import Mathlib

/-!
Verification of the slidev React addon: the attribute sanitizer
(`src/utils/filter-props.ts`), the embedding bridge (`src/components/React.vue`,
first variant: glob-eager registry), the directory-scan component registry
(`loadRegistry` in `React.vue`), and the build-time JSX transform hook
(the Vite plugin setup module).

JavaScript values are shallowly embedded as the inductive `Val`.  Attribute
bags and registries are association lists in the object's enumeration order;
JavaScript object keys are unique, so indexed assignment inside a `for..in`
loop over a distinct-key bag appends entries in enumeration order.
-/

namespace SlidevReact

/-- Shallow embedding of the JavaScript values that can appear in a Vue
attribute bag: primitives, functions (identified by an id), plain objects
(field lists), plain arrays, Vue refs (`vref`) and Vue reactive proxies
(`reactive` over the raw object). -/
inductive Val where
  | str (s : String)
  | num (n : Int)
  | bool (b : Bool)
  | null
  | undefined
  | fn (id : Nat)
  | obj (fields : List (String × Val))
  | arr (elems : List Val)
  | vref (inner : Val)
  | reactive (raw : Val)

/-- JavaScript truthiness of a value. -/
def truthy : Val → Bool
  | .str s => s ≠ ""
  | .num n => n ≠ 0
  | .bool b => b
  | .null => false
  | .undefined => false
  | _ => true

/-- Property lookup in an object's field list (first binding wins, as for a
JavaScript object whose keys are unique). -/
def getProp : List (String × Val) → String → Option Val
  | [], _ => none
  | (k, v) :: rest, key => if k == key then some v else getProp rest key

/-- The VNode test of `filter-props.ts` line 26:
`typeof val === 'object' && val !== null && '__v_isVNode' in val && val.__v_isVNode`.
A reactive proxy forwards both the `in` check and the property read to its raw
target; refs and arrays carry no own `__v_isVNode` property; `typeof null`
is `'object'` but `val !== null` excludes it. -/
def isVNodeVal : Val → Bool
  | .obj fields =>
    match getProp fields "__v_isVNode" with
    | some v => truthy v
    | none => false
  | .reactive raw => isVNodeVal raw
  | _ => false

/-- Vue's `isRef`. -/
def isRefVal : Val → Bool
  | .vref _ => true
  | _ => false

/-- Vue's `unref`: the ref's current inner value, identity otherwise. -/
def unrefVal : Val → Val
  | .vref inner => inner
  | v => v

/-- Vue's `isReactive`. -/
def isReactiveVal : Val → Bool
  | .reactive _ => true
  | _ => false

/-- Vue's `toRaw`: the plain raw object behind a reactive proxy, identity
otherwise. -/
def toRaw : Val → Val
  | .reactive raw => raw
  | v => v

/-- `charsStart pat cs` holds when `pat` is an initial segment of `cs`. -/
def charsStart : List Char → List Char → Bool
  | [], _ => true
  | _ :: _, [] => false
  | p :: ps, c :: cs => p == c && charsStart ps cs

/-- JavaScript's `String.prototype.startsWith`, as a computation over the
character lists of the two strings. -/
def strStarts (s pat : String) : Bool := charsStart pat.data s.data

/-- The key filter of `filter-props.ts` line 19:
`key.startsWith('__') || key.startsWith('on') || key === 'class' || key === 'style'`. -/
def dropKey (key : String) : Bool :=
  strStarts key "__" || strStarts key "on" || key == "class" || key == "style"

/-- `filterProps` from `src/utils/filter-props.ts`: per entry of the bag,
drop filtered keys, drop VNode values, unwrap refs then reactive proxies,
and copy everything else through unchanged. -/
def filterProps : List (String × Val) → List (String × Val)
  | [] => []
  | (key, v) :: rest =>
    if dropKey key then
      filterProps rest
    else if isVNodeVal v then
      filterProps rest
    else
      let v1 := if isRefVal v then unrefVal v else v
      let v2 := if isReactiveVal v1 then toRaw v1 else v1
      (key, v2) :: filterProps rest

/-- `charsHas pat cs` holds when `pat` occurs as a contiguous run inside `cs`. -/
def charsHas (pat : List Char) : List Char → Bool
  | [] => charsStart pat []
  | c :: cs => charsStart pat (c :: cs) || charsHas pat cs

/-- JavaScript's `String.prototype.includes`. -/
def strIncludes (s pat : String) : Bool := charsHas pat.data s.data

/-- JavaScript's `String.prototype.endsWith`, via the reversed character
lists. -/
def strEnds (s pat : String) : Bool := charsStart pat.data.reverse s.data.reverse

/-! ## Component registry (directory scan)

`loadRegistry` in `src/components/React.vue` (first variant) walks the
eager-glob module map of `/react-components/**/*.{jsx,tsx}` and registers
each module's default export under its derived name.  A module is a pair of
its path and its default export (`none` when the module has no default
export, or a falsy one — `mod.default` is tested for truthiness).
Components are opaque and identified by a `Nat`. -/

/-- The characters after the last `/` of the path: `path.split('/').pop()`,
with the empty string for the `?? ''` fallback. -/
def lastSegChars (acc : List Char) : List Char → List Char
  | [] => acc
  | c :: cs => if c == '/' then lastSegChars [] cs else lastSegChars (acc ++ [c]) cs

/-- Registry-name derivation of `React.vue` line 31:
`path.split('/').pop()?.replace(/\.(jsx|tsx)$/, '') || ''`. -/
def deriveName (path : String) : String :=
  let base := String.mk (lastSegChars [] path.data)
  if strEnds base ".jsx" || strEnds base ".tsx" then
    String.mk (base.data.take (base.data.length - 4))
  else base

/-- JavaScript object assignment `registry[name] = d`: replace the binding
in place when the key exists, append otherwise. -/
def setKey : List (String × Nat) → String → Nat → List (String × Nat)
  | [], k, c => [(k, c)]
  | (k0, c0) :: rest, k, c =>
    if k0 == k then (k, c) :: rest else (k0, c0) :: setKey rest k c

/-- One iteration of the `loadRegistry` loop:
`if (name && mod.default) registry[name] = mod.default`. -/
def registerModule (reg : List (String × Nat)) (m : String × Option Nat) :
    List (String × Nat) :=
  let name := deriveName m.1
  match m.2 with
  | some d => if name ≠ "" then setKey reg name d else reg
  | none => reg

/-- The registry built by `loadRegistry` from the glob result, in
enumeration order of the module map. -/
def loadRegistry (modules : List (String × Option Nat)) : List (String × Nat) :=
  modules.foldl registerModule []

/-! ## Embedding bridge (`React.vue`, first variant)

`renderReact` is modelled as a function from bridge state to bridge state
plus the list of observable events it emits (console warnings/errors, render
calls, root unmounts).  The state holds: whether the template-ref container
is available, whether a React root exists, the per-instance `registry`
variable (`none` = still `null`), and a ghost counter of how many times
`loadRegistry` has run.

In this first variant `loadRegistry`'s body contains no `await`
(`import.meta.glob(..., { eager: true })` is resolved at build time), so the
whole prefix of `renderReact` up to and including the registry load runs as
one synchronous JavaScript segment: no other invocation can interleave
between the `if (!registry)` test and the assignment of `registry`.  All
writes to `registry`/`loadCount` happen in that first atomic segment, and the
suspension points that follow (`await import('react-dom/client')`,
`await import('react')`) never touch them, so sequential composition of
whole `renderReact` calls is faithful to every event-loop interleaving as
far as registry loading is concerned. -/

structure BridgeState where
  container : Bool
  root : Bool
  registry : Option (List (String × Nat))
  loadCount : Nat

/-- Observable effects of the bridge. -/
inductive Event where
  | warnNotFound (name : String) (available : String)
  | errorNoCreateRoot
  | renderCall (comp : Nat) (props : List (String × Val))
  | unmountRoot

/-- The inline attribute loop of `React.vue` (first variant, lines 74-80):
drop filtered keys, copy every other value through. -/
def cleanAttrs : List (String × Val) → List (String × Val)
  | [] => []
  | (key, v) :: rest =>
    if dropKey key then cleanAttrs rest else (key, v) :: cleanAttrs rest

/-- Registry lookup `registry[name]` (keys are unique, first match). -/
def lookupReg : List (String × Nat) → String → Option Nat
  | [], _ => none
  | (k, c) :: rest, key => if k == key then some c else lookupReg rest key

/-- `Object.keys(registry).join(', ')`. -/
def joinKeys (reg : List (String × Nat)) : String :=
  String.intercalate ", " (reg.map Prod.fst)

/-- The `available` string of the not-found warning:
`registry ? Object.keys(registry).join(', ') : 'none'`. -/
def availableNames : Option (List (String × Nat)) → String
  | some r => joinKeys r
  | none => "none"

/-- `renderReact` of `React.vue` (first variant): bail out when the
container is gone; load the registry once when it is still `null`; warn and
stop when the name does not resolve; otherwise create the root if needed
(aborting with a console error when `createRoot` is absent from the React
DOM build) and call `root.render` with the cleaned attributes. -/
def renderReact (modules : List (String × Option Nat)) (createRootAvail : Bool)
    (name : String) (attrs : List (String × Val)) (s : BridgeState) :
    BridgeState × List Event :=
  if s.container = false then (s, [])
  else
    let s1 := if s.registry.isNone then
        { s with registry := some (loadRegistry modules), loadCount := s.loadCount + 1 }
      else s
    let comp := match s1.registry with
      | none => none
      | some r => lookupReg r name
    match comp with
    | none => (s1, [.warnNotFound name (availableNames s1.registry)])
    | some c =>
      if s1.root = false then
        if createRootAvail = false then (s1, [.errorNoCreateRoot])
        else ({ s1 with root := true }, [.renderCall c (cleanAttrs attrs)])
      else (s1, [.renderCall c (cleanAttrs attrs)])

/-- Host-side destruction of the bridge node: Vue runs the `onUnmounted`
hook (`root?.unmount(); root = null`), clears the template ref (so
`container.value` is `null` afterwards) and stops the component's watchers. -/
def onDestroy (s : BridgeState) : BridgeState × List Event :=
  ({ s with root := false, container := false },
   if s.root then [.unmountRoot] else [])

/-- A sequence of render triggers (`onMounted` / attribute-change /
name-change watchers) processed by the event loop. -/
def runRenders (modules : List (String × Option Nat)) (createRootAvail : Bool)
    (attrs : List (String × Val)) (names : List String) (s : BridgeState) :
    BridgeState :=
  names.foldl (fun st n => (renderReact modules createRootAvail n attrs st).1) s

/-! ## Build-time transform hook (Vite plugin setup module)

The `transform(code, id)` hook of the `slidev-addon-react` plugin.  Esbuild
is an external collaborator, abstracted as a function from source text and
loader to its output; the hook's own logic is the match predicate, the
loader choice and the skip signal (`null`, embedded as `none`). -/

inductive Loader where
  | jsx
  | tsx

structure EsbuildOut where
  code : String
  map : String

/-- The transform hook:
`if (!id.includes('react-components') || !/\.[jt]sx$/.test(id)) return null`,
then esbuild with loader `id.endsWith('.tsx') ? 'tsx' : 'jsx'`, returning
`{ code: result.code, map: result.map }`. -/
def transform (esbuild : String → Loader → EsbuildOut) (code id : String) :
    Option EsbuildOut :=
  if !(strIncludes id "react-components") || !(strEnds id ".jsx" || strEnds id ".tsx") then
    none
  else
    some (esbuild code (if strEnds id ".tsx" then .tsx else .jsx))

/-! ## Concrete bags used in the scenario claims -/

/-- The scenario bag
`{title:"Hello", count:42, class:"x", onClick:fn, config:{theme:"dark"}, items:[1,2,3]}`. -/
def demoBag : List (String × Val) :=
  [("title", .str "Hello"), ("count", .num 42), ("class", .str "x"),
   ("onClick", .fn 0),
   ("config", .obj [("theme", .str "dark")]),
   ("items", .arr [.num 1, .num 2, .num 3])]

/-- The expected sanitizer output
`{title:"Hello", count:42, config:{theme:"dark"}, items:[1,2,3]}`. -/
def demoExpected : List (String × Val) :=
  [("title", .str "Hello"), ("count", .num 42),
   ("config", .obj [("theme", .str "dark")]),
   ("items", .arr [.num 1, .num 2, .num 3])]

/-! ## Lemmas about the sanitizer -/

/-- Every key of the sanitized output fails the key filter. -/
theorem filterProps_key_mem (attrs : List (String × Val)) (k : String)
    (h : k ∈ (filterProps attrs).map Prod.fst) : dropKey k = false := by
  induction attrs with
  | nil => simp [filterProps] at h
  | cons p rest ih =>
    obtain ⟨key, v⟩ := p
    by_cases h1 : dropKey key
    · rw [filterProps, if_pos h1] at h
      exact ih h
    · by_cases h2 : isVNodeVal v
      · rw [filterProps, if_neg h1, if_pos h2] at h
        exact ih h
      · rw [filterProps, if_neg h1, if_neg h2] at h
        simp only [List.map_cons, List.mem_cons] at h
        rcases h with h | h
        · subst h
          exact Bool.eq_false_iff.mpr h1
        · exact ih h

/-- A single entry whose key survives the filter and whose value matches no
drop or unwrap rule is copied through unchanged. -/
theorem filterProps_single_plain (k : String) (v : Val)
    (hk : dropKey k = false) (hvn : isVNodeVal v = false)
    (hr : isRefVal v = false) (hrc : isReactiveVal v = false) :
    filterProps [(k, v)] = [(k, v)] := by
  rw [filterProps]
  simp [hk, hvn, hr, hrc, filterProps]

/-- C1: the scenario bag `{title:"Hello", count:42, class:"x", onClick:fn,
config:{theme:"dark"}, items:[1,2,3]}` sanitizes to exactly
`{title:"Hello", count:42, config:{theme:"dark"}, items:[1,2,3]}`, and in
general any single entry whose key is kept and whose value matches no drop
or unwrap rule (in particular a plain object or plain array) appears in the
output as the very same value (pass-through by reference, no copy). -/
theorem c1_plain_values_pass_through :
    filterProps demoBag = demoExpected ∧
    ∀ k v, dropKey k = false → isVNodeVal v = false → isRefVal v = false →
      isReactiveVal v = false → filterProps [(k, v)] = [(k, v)] := by
  refine ⟨rfl, ?_⟩
  intro k v hk hvn hr hrc
  exact filterProps_single_plain k v hk hvn hr hrc

/-- C1 witness: the scenario evaluation together with the pass-through of
the plain object `{theme:"dark"}` under the key `config`. -/
theorem c1_plain_values_pass_through_witness :
    filterProps demoBag = demoExpected ∧
    filterProps [("config", Val.obj [("theme", Val.str "dark")])]
      = [("config", Val.obj [("theme", Val.str "dark")])] :=
  ⟨c1_plain_values_pass_through.1,
   c1_plain_values_pass_through.2 "config" (Val.obj [("theme", Val.str "dark")])
     rfl rfl rfl rfl⟩

/-- C2: a ref around a non-reactive value (primitive, plain object, plain
array, null) sanitizes to exactly that value, and a reactive proxy over a
plain object resolves to its raw object in the output. -/
theorem c2_wrappers_unwrapped (k : String) (v : Val) (fs : List (String × Val))
    (hk : dropKey k = false) (hr : isRefVal v = false)
    (hrc : isReactiveVal v = false)
    (hfs : isVNodeVal (Val.obj fs) = false) :
    filterProps [(k, Val.vref v)] = [(k, v)] ∧
    filterProps [(k, Val.reactive (Val.obj fs))] = [(k, Val.obj fs)] := by
  constructor
  · rw [filterProps]
    simp [hk, isVNodeVal, isRefVal, unrefVal, hrc, filterProps]
  · have h1 : isVNodeVal (Val.reactive (Val.obj fs)) = false := hfs
    rw [filterProps]
    simp [hk, h1, isRefVal, isReactiveVal, toRaw, filterProps]

/-- C2 witness: `ref(5)` unwraps to `5` and `reactive({a:1})` resolves to
the raw `{a:1}`. -/
theorem c2_wrappers_unwrapped_witness :
    filterProps [("wrapped", Val.vref (Val.num 5))] = [("wrapped", Val.num 5)] ∧
    filterProps [("state", Val.reactive (Val.obj [("a", Val.num 1)]))]
      = [("state", Val.obj [("a", Val.num 1)])] :=
  ⟨(c2_wrappers_unwrapped "wrapped" (Val.num 5) [("a", Val.num 1)] rfl rfl rfl rfl).1,
   (c2_wrappers_unwrapped "state" (Val.num 5) [("a", Val.num 1)] rfl rfl rfl rfl).2⟩

/-- C4: no key of the sanitized output starts with the reserved internal
prefix `__`, none starts with the event-handler prefix `on`, and neither
`class` nor `style` occurs. -/
theorem c4_no_filtered_keys (attrs : List (String × Val)) (k : String)
    (h : k ∈ (filterProps attrs).map Prod.fst) :
    strStarts k "__" = false ∧ strStarts k "on" = false ∧
    k ≠ "class" ∧ k ≠ "style" := by
  have hd := filterProps_key_mem attrs k h
  unfold dropKey at hd
  simp only [Bool.or_eq_false_iff, beq_eq_false_iff_ne] at hd
  exact ⟨hd.1.1.1, hd.1.1.2, hd.1.2, hd.2⟩

/-- C4 witness: the surviving key `title` of the bag `{title:"x"}` has none
of the filtered shapes. -/
theorem c4_no_filtered_keys_witness :
    strStarts "title" "__" = false ∧ strStarts "title" "on" = false ∧
    "title" ≠ "class" ∧ "title" ≠ "style" :=
  c4_no_filtered_keys [("title", Val.str "x")] "title" (by decide)

/-- C5: a kept key whose top-level value bears a truthy `__v_isVNode` marker
disappears from the output entirely, while an object without a top-level
marker is preserved as-is even when a marker-bearing object sits nested
inside one of its fields. -/
theorem c5_vnode_top_level_only (k k2 : String) (v : Val)
    (rest fs : List (String × Val))
    (hk : dropKey k = false) (hk2 : dropKey k2 = false)
    (hv : isVNodeVal v = true)
    (hfs : isVNodeVal (Val.obj fs) = false) :
    filterProps ((k, v) :: rest) = filterProps rest ∧
    filterProps [(k2, Val.obj fs)] = [(k2, Val.obj fs)] := by
  constructor
  · rw [filterProps, if_neg (by simp [hk]), if_pos hv]
  · exact filterProps_single_plain k2 (Val.obj fs) hk2 hfs rfl rfl

/-- C5 witness: a top-level VNode value under `content` is dropped, while
`{child: vnode}` (marker only nested) passes through unchanged. -/
theorem c5_vnode_top_level_only_witness :
    filterProps [("content", Val.obj [("__v_isVNode", Val.bool true)])] = [] ∧
    filterProps
        [("wrap", Val.obj [("child", Val.obj [("__v_isVNode", Val.bool true)])])]
      = [("wrap", Val.obj [("child", Val.obj [("__v_isVNode", Val.bool true)])])] :=
  c5_vnode_top_level_only "content" "wrap"
    (Val.obj [("__v_isVNode", Val.bool true)])
    [] [("child", Val.obj [("__v_isVNode", Val.bool true)])]
    (by decide) (by decide) rfl rfl

/-- C9: every key beginning with the two characters `on` is dropped by the
sanitizer whatever its value, including keys such as `once` and `online`
that are not event handlers, while a callback under a key not starting with
`on` (such as `handleClick`) passes through. -/
theorem c9_on_keys_dropped (attrs : List (String × Val)) (k : String)
    (h : strStarts k "on" = true) :
    k ∉ (filterProps attrs).map Prod.fst ∧
    filterProps [("once", Val.bool true), ("online", Val.str "x"),
        ("handleClick", Val.fn 0)]
      = [("handleClick", Val.fn 0)] := by
  constructor
  · intro hmem
    have hd := filterProps_key_mem attrs k hmem
    unfold dropKey at hd
    rw [h] at hd
    simp at hd
  · rfl

/-- C9 witness: `online` never survives sanitization of the bag
`{online:"x"}`, while the concrete bag with `once`, `online` and
`handleClick` keeps only `handleClick`. -/
theorem c9_on_keys_dropped_witness :
    "online" ∉ (filterProps [("online", Val.str "x")]).map Prod.fst ∧
    filterProps [("once", Val.bool true), ("online", Val.str "x"),
        ("handleClick", Val.fn 0)]
      = [("handleClick", Val.fn 0)] :=
  c9_on_keys_dropped [("online", Val.str "x")] "online" rfl

/-! ## Lemmas about the bridge -/

/-- The registry value after `renderReact` has ensured it is loaded. -/
def registryAfterLoad (modules : List (String × Option Nat)) (s : BridgeState) :
    List (String × Nat) :=
  match s.registry with
  | none => loadRegistry modules
  | some r => r

/-- The load-once invariant of a bridge instance: the registry has been
loaded at most once, and not at all while the variable is still `null`. -/
def LoadInv (s : BridgeState) : Prop :=
  s.loadCount ≤ 1 ∧ (s.registry = none → s.loadCount = 0)

/-- One `renderReact` call preserves the load-once invariant: its only
registry write happens in the synchronous prefix, guarded by the
`if (!registry)` test. -/
theorem renderReact_loadInv (modules : List (String × Option Nat))
    (cra : Bool) (name : String) (attrs : List (String × Val))
    (s : BridgeState) (h : LoadInv s) :
    LoadInv (renderReact modules cra name attrs s).1 := by
  obtain ⟨h1, h2⟩ := h
  obtain ⟨sc, sr, sreg, slc⟩ := s
  cases sc with
  | false => exact ⟨h1, h2⟩
  | true =>
    cases sreg with
    | none =>
      have hcount : slc = 0 := h2 rfl
      subst hcount
      rcases hl : lookupReg (loadRegistry modules) name with _ | c
      · simp [renderReact, LoadInv, hl]
      · cases sr <;> cases cra <;> simp [renderReact, LoadInv, hl]
    | some r =>
      rcases hl : lookupReg r name with _ | c
      · simpa [renderReact, LoadInv, hl] using h1
      · cases sr <;> cases cra <;> simpa [renderReact, LoadInv, hl] using h1

/-- C3: over any sequence of render triggers (mounts, attribute changes,
name changes) dispatched to one bridge whose registry starts out unloaded,
the registry load runs at most once; the check-and-load prefix of
`renderReact` is one synchronous segment, so no trigger can start a second
load while an earlier one is underway. -/
theorem c3_registry_loaded_at_most_once (modules : List (String × Option Nat))
    (cra : Bool) (attrs : List (String × Val)) (names : List String)
    (s0 : BridgeState) (h1 : s0.registry = none) (h2 : s0.loadCount = 0) :
    (runRenders modules cra attrs names s0).loadCount ≤ 1 := by
  have hinv : LoadInv s0 := ⟨by omega, fun _ => h2⟩
  clear h1 h2
  rw [runRenders]
  induction names generalizing s0 with
  | nil => exact hinv.1
  | cons n rest ih =>
    rw [List.foldl_cons]
    exact ih _ (renderReact_loadInv modules cra n attrs s0 hinv)

/-- C3 witness: two back-to-back triggers on a freshly mounted bridge load
the registry at most once. -/
theorem c3_registry_loaded_at_most_once_witness :
    (runRenders [("/react-components/Counter.jsx", some 7)] true []
        ["Counter", "Counter"] ⟨true, false, none, 0⟩).loadCount ≤ 1 :=
  c3_registry_loaded_at_most_once [("/react-components/Counter.jsx", some 7)]
    true [] ["Counter", "Counter"] ⟨true, false, none, 0⟩ rfl rfl

/-- C6: a render against a name absent from the (possibly just-loaded)
registry emits exactly one warning naming the known components, creates no
guest root, performs no render call, and leaves the bridge usable: a later
trigger with a registered name renders that component. -/
theorem c6_unknown_name_warns (modules : List (String × Option Nat))
    (cra : Bool) (name : String) (attrs attrs2 : List (String × Val))
    (s : BridgeState) (hc : s.container = true) (hroot : s.root = false)
    (hnf : lookupReg (registryAfterLoad modules s) name = none) :
    (renderReact modules cra name attrs s).2
        = [.warnNotFound name (joinKeys (registryAfterLoad modules s))] ∧
    (renderReact modules cra name attrs s).1.root = false ∧
    ∀ name2 comp, lookupReg (registryAfterLoad modules s) name2 = some comp →
      (renderReact modules true name2 attrs2
          (renderReact modules cra name attrs s).1).2
        = [.renderCall comp (cleanAttrs attrs2)] := by
  obtain ⟨sc, sr, sreg, slc⟩ := s
  simp only at hc hroot
  subst hc
  subst hroot
  cases sreg with
  | none =>
    simp only [registryAfterLoad] at hnf ⊢
    refine ⟨by simp [renderReact, hnf, availableNames, joinKeys], ?_, ?_⟩
    · simp [renderReact, hnf]
    · intro name2 comp hfound
      simp [renderReact, hnf, hfound, availableNames]
  | some r =>
    simp only [registryAfterLoad] at hnf ⊢
    refine ⟨by simp [renderReact, hnf, availableNames, joinKeys], ?_, ?_⟩
    · simp [renderReact, hnf]
    · intro name2 comp hfound
      simp [renderReact, hnf, hfound, availableNames]

/-- C6 witness: mounting with the unknown name `Nope` against a registry
holding only `Counter` warns once listing `Counter`, creates no root, and a
follow-up render of `Counter` succeeds. -/
theorem c6_unknown_name_warns_witness :
    (renderReact [("/react-components/Counter.jsx", some 7)] true "Nope" []
        ⟨true, false, none, 0⟩).2
      = [.warnNotFound "Nope" "Counter"] ∧
    (renderReact [("/react-components/Counter.jsx", some 7)] true "Nope" []
        ⟨true, false, none, 0⟩).1.root = false ∧
    (renderReact [("/react-components/Counter.jsx", some 7)] true "Counter"
        [("count", Val.num 3)]
        (renderReact [("/react-components/Counter.jsx", some 7)] true "Nope" []
          ⟨true, false, none, 0⟩).1).2
      = [.renderCall 7 [("count", Val.num 3)]] := by
  obtain ⟨a, b, c⟩ := c6_unknown_name_warns
    [("/react-components/Counter.jsx", some 7)] true "Nope" []
    [("count", Val.num 3)] ⟨true, false, none, 0⟩ rfl rfl rfl
  exact ⟨a, b, c "Counter" 7 rfl⟩

/-- C7: destruction unmounts the guest root exactly when one exists and
releases the reference, and any later render trigger is discarded: it
emits no event at all (no render call, no warning, no error) and leaves the
state unchanged. -/
theorem c7_destroy_discards_renders (s : BridgeState) :
    (onDestroy s).1.root = false ∧
    ((onDestroy s).2 = if s.root then [Event.unmountRoot] else []) ∧
    ∀ modules cra name attrs,
      renderReact modules cra name attrs (onDestroy s).1
        = ((onDestroy s).1, []) := by
  refine ⟨rfl, rfl, ?_⟩
  intro modules cra name attrs
  rw [renderReact]
  simp [onDestroy]

/-- C7 witness: destroying a bridge that owns a root unmounts it, and a
late attribute-change render against the destroyed bridge emits nothing. -/
theorem c7_destroy_discards_renders_witness :
    (onDestroy ⟨true, true, some [("Counter", 7)], 1⟩).1.root = false ∧
    (onDestroy ⟨true, true, some [("Counter", 7)], 1⟩).2 = [Event.unmountRoot] ∧
    renderReact [] true "Counter" [("count", Val.num 3)]
        (onDestroy ⟨true, true, some [("Counter", 7)], 1⟩).1
      = ((onDestroy ⟨true, true, some [("Counter", 7)], 1⟩).1, []) := by
  obtain ⟨a, b, c⟩ := c7_destroy_discards_renders ⟨true, true, some [("Counter", 7)], 1⟩
  exact ⟨a, b, c [] true "Counter" [("count", Val.num 3)]⟩

/-! ## Lemmas about the directory-scan registry -/

/-- Keys of `setKey`: the updated registry holds exactly the old keys plus
the assigned one. -/
theorem mem_keys_setKey (reg : List (String × Nat)) (k m : String) (c : Nat) :
    m ∈ (setKey reg k c).map Prod.fst ↔ m ∈ reg.map Prod.fst ∨ m = k := by
  induction reg with
  | nil => simp [setKey]
  | cons p rest ih =>
    obtain ⟨k0, c0⟩ := p
    by_cases h : k0 = k
    · subst h
      simp [setKey]
      tauto
    · rw [setKey, if_neg (by simpa using h)]
      simp only [List.map_cons, List.mem_cons, ih]
      tauto

/-- Membership in the keys of the scanned registry, relative to an
arbitrary accumulator. -/
theorem mem_keys_scan_aux (ms : List (String × Option Nat))
    (reg : List (String × Nat)) (k : String) :
    k ∈ ((ms.foldl registerModule reg).map Prod.fst) ↔
      k ∈ reg.map Prod.fst ∨
        ∃ p d, (p, some d) ∈ ms ∧ deriveName p = k ∧ k ≠ "" := by
  induction ms generalizing reg with
  | nil => simp
  | cons m rest ih =>
    obtain ⟨p, md⟩ := m
    rw [List.foldl_cons]
    cases md with
    | none =>
      rw [ih]
      simp only [registerModule]
      constructor
      · rintro (h | ⟨p', d', hmem, hname, hne⟩)
        · exact Or.inl h
        · exact Or.inr ⟨p', d', List.mem_cons_of_mem _ hmem, hname, hne⟩
      · rintro (h | ⟨p', d', hmem, hname, hne⟩)
        · exact Or.inl h
        · rcases List.mem_cons.mp hmem with heq | hmem'
          · exact absurd (congrArg Prod.snd heq) (by simp)
          · exact Or.inr ⟨p', d', hmem', hname, hne⟩
    | some d =>
      by_cases hn : deriveName p = ""
      · rw [ih]
        simp only [registerModule, hn, ne_eq, not_true_eq_false, if_false]
        constructor
        · rintro (h | ⟨p', d', hmem, hname, hne⟩)
          · exact Or.inl h
          · exact Or.inr ⟨p', d', List.mem_cons_of_mem _ hmem, hname, hne⟩
        · rintro (h | ⟨p', d', hmem, hname, hne⟩)
          · exact Or.inl h
          · rcases List.mem_cons.mp hmem with heq | hmem'
            · obtain ⟨hp, -⟩ := Prod.mk.injEq .. |>.mp heq
              rw [hp, hn] at hname
              exact absurd hname.symm hne
            · exact Or.inr ⟨p', d', hmem', hname, hne⟩
      · rw [ih]
        simp only [registerModule, hn, ne_eq, not_false_eq_true, if_true,
          mem_keys_setKey]
        constructor
        · rintro ((h | hk) | ⟨p', d', hmem, hname, hne⟩)
          · exact Or.inl h
          · exact Or.inr ⟨p, d, List.mem_cons_self _ _, hk.symm, hk ▸ hn⟩
          · exact Or.inr ⟨p', d', List.mem_cons_of_mem _ hmem, hname, hne⟩
        · rintro (h | ⟨p', d', hmem, hname, hne⟩)
          · exact Or.inl (Or.inl h)
          · rcases List.mem_cons.mp hmem with heq | hmem'
            · obtain ⟨hp, -⟩ := Prod.mk.injEq .. |>.mp heq
              rw [hp] at hname
              exact Or.inl (Or.inr hname.symm)
            · exact Or.inr ⟨p', d', hmem', hname, hne⟩

/-- C10: a name is registered by the directory scan exactly when some
scanned module has a default export and derives that (non-empty) name from
its file name, and a module without a default export contributes nothing to
the registry. -/
theorem c10_default_export_required (modules : List (String × Option Nat))
    (k : String) :
    (k ∈ (loadRegistry modules).map Prod.fst ↔
      ∃ p d, (p, some d) ∈ modules ∧ deriveName p = k ∧ k ≠ "") ∧
    ∀ pre post p, loadRegistry (pre ++ (p, none) :: post)
      = loadRegistry (pre ++ post) := by
  constructor
  · rw [loadRegistry, mem_keys_scan_aux]
    simp
  · intro pre post p
    rw [loadRegistry, loadRegistry, List.foldl_append, List.foldl_append,
      List.foldl_cons]
    rfl

/-- C10 witness: scanning `Counter.jsx` (with default export) and
`Broken.jsx` (without) registers exactly `Counter`; the brokent module is
silently omitted. -/
theorem c10_default_export_required_witness :
    ("Counter" ∈ (loadRegistry [("/react-components/Counter.jsx", some 1),
        ("/react-components/Broken.jsx", none)]).map Prod.fst ↔
      ∃ p d, (p, some d) ∈ [("/react-components/Counter.jsx", some 1),
          ("/react-components/Broken.jsx", (none : Option Nat))] ∧
        deriveName p = "Counter" ∧ "Counter" ≠ "") ∧
    loadRegistry [("/react-components/Counter.jsx", some 1),
        ("/react-components/Broken.jsx", none)]
      = loadRegistry [("/react-components/Counter.jsx", some 1)] := by
  obtain ⟨a, b⟩ := c10_default_export_required
    [("/react-components/Counter.jsx", some 1),
     ("/react-components/Broken.jsx", none)] "Counter"
  exact ⟨a, b [("/react-components/Counter.jsx", some 1)] []
    "/react-components/Broken.jsx"⟩

/-! ## Lemmas about the transform hook -/

/-- C8: the transform hook compiles a file exactly when its path contains
the `react-components` segment and ends in `.jsx` or `.tsx` (with the
loader chosen by the `.tsx` suffix), and returns the skip signal `none` —
distinct from any transformed result, empty or not — for every other
file. -/
theorem c8_transform_match (esbuild : String → Loader → EsbuildOut)
    (code id : String) :
    ((strIncludes id "react-components" = true ∧
        (strEnds id ".jsx" = true ∨ strEnds id ".tsx" = true)) →
      transform esbuild code id
        = some (esbuild code
            (if strEnds id ".tsx" then Loader.tsx else Loader.jsx))) ∧
    (¬(strIncludes id "react-components" = true ∧
        (strEnds id ".jsx" = true ∨ strEnds id ".tsx" = true)) →
      transform esbuild code id = none) := by
  constructor
  · rintro ⟨h1, h2⟩
    rw [transform]
    rcases h2 with h2 | h2 <;> simp [h1, h2]
  · intro h
    rw [transform]
    by_cases h1 : strIncludes id "react-components" = true
    · by_cases h2 : strEnds id ".jsx" = true
      · exact absurd ⟨h1, Or.inl h2⟩ h
      · by_cases h3 : strEnds id ".tsx" = true
        · exact absurd ⟨h1, Or.inr h3⟩ h
        · simp [h1, h2, h3]
    · simp [h1]

/-- C8 witness: a `.jsx` file under `react-components` is compiled (even to
empty output the result is a `some`), while a file elsewhere and a
non-guest-syntax file both get the skip signal. -/
theorem c8_transform_match_witness :
    transform (fun _ _ => ⟨"", ""⟩) "" "/proj/react-components/A.jsx"
      = some ⟨"", ""⟩ ∧
    transform (fun _ _ => ⟨"", ""⟩) "" "/proj/other/A.jsx" = none ∧
    transform (fun _ _ => ⟨"", ""⟩) "" "/proj/react-components/A.vue"
      = none := by
  refine ⟨?_, ?_, ?_⟩
  · exact (c8_transform_match (fun _ _ => ⟨"", ""⟩) ""
      "/proj/react-components/A.jsx").1 ⟨by decide, Or.inl (by decide)⟩
  · exact (c8_transform_match (fun _ _ => ⟨"", ""⟩) ""
      "/proj/other/A.jsx").2 (by decide)
  · exact (c8_transform_match (fun _ _ => ⟨"", ""⟩) ""
      "/proj/react-components/A.vue").2 (by decide)

end SlidevReact
